import Mathlib

/-!
# Event Hub consumer group resource

A shallow embedding of `azurerm/resource_arm_eventhub_consumer_group.go`:
the three lifecycle functions `resourceArmEventHubConsumerGroupCreateUpdate`,
`resourceArmEventHubConsumerGroupRead` and
`resourceArmEventHubConsumerGroupDelete`, the `user_metadata` schema entry,
and theorems about them.

Conventions of the embedding.

* A Go `error` value is represented by its message (a `String`); `nil` is
  `none`.  Formatting an error with `%+v` yields that message.
* A Go pointer that may be `nil` is an `Option`.
* The remote service is a state of an arbitrary type `σ`; every client
  method takes the state and returns the next state with its Go results.
* Each lifecycle function returns the resource data it leaves behind, the
  state of the remote service, the client calls it issued in order, and how
  it ended (`nil`, an `error`, or a runtime panic).
-/

namespace Azurerm

/-! ## Go-side data -/

/-- The part of `autorest.Response` the resource looks at: the HTTP status of
the embedded `*http.Response`, `none` when that pointer is `nil`. -/
structure Response where
  StatusCode : Option Nat
deriving DecidableEq, Repr

/-- The struct `eventhub.ConsumerGroupProperties`; `UserMetadata` is a `*string`. -/
structure ConsumerGroupProperties where
  UserMetadata : Option String
deriving DecidableEq, Repr

/-- The struct `eventhub.ConsumerGroup`: the embedded `autorest.Response`, the
embedded pointer `*ConsumerGroupProperties`, and the pointers `ID` and `Name`. -/
structure ConsumerGroup where
  Response : Response
  ConsumerGroupProperties : Option ConsumerGroupProperties
  ID : Option String
  Name : Option String
deriving DecidableEq, Repr

/-- The fields of `ResourceID` the resource reads: `ResourceGroup` and the
`Path` map, kept as an association list. -/
structure ResourceID where
  ResourceGroup : String
  Path : List (String × String)
deriving DecidableEq, Repr

/-- Go map indexing `id.Path[key]`: the zero value `""` when the key is absent. -/
def ResourceID.path (id : ResourceID) (key : String) : String :=
  match id.Path.find? (fun kv => decide (kv.1 = key)) with
  | some kv => kv.2
  | none => ""

/-- The `schema.ResourceData` of one resource: its identifier and its
attribute bag.  An attribute that was never set is `none`. -/
structure ResourceData where
  id : String
  attrs : String → Option String

/-- The method `d.Id()`. -/
def ResourceData.Id (d : ResourceData) : String := d.id

/-- The method `d.SetId(v)`. -/
def ResourceData.SetId (d : ResourceData) (v : String) : ResourceData :=
  { d with id := v }

/-- The read `d.Get(key).(string)`: the zero value `""` when the attribute is unset. -/
def ResourceData.Get (d : ResourceData) (key : String) : String :=
  match d.attrs key with
  | some v => v
  | none => ""

/-- The write `d.Set(key, value)` for a string or `*string` value; a `nil` pointer
leaves the attribute unset. -/
def ResourceData.Set (d : ResourceData) (key : String) (value : Option String) :
    ResourceData :=
  { d with attrs := fun k => if k = key then value else d.attrs k }

/-! ## The remote client -/

/-- One call on the consumer-group client, with its arguments after `ctx`. -/
inductive Call where
  | CreateOrUpdate (resourceGroupName namespaceName eventHubName consumerGroupName : String)
      (parameters : ConsumerGroup)
  | Get (resourceGroupName namespaceName eventHubName consumerGroupName : String)
  | Delete (resourceGroupName namespaceName eventHubName consumerGroupName : String)
deriving DecidableEq, Repr

/-- The three methods of `eventhub.ConsumerGroupsClient` the resource uses,
over a remote state `σ`.  Each returns the next remote state, the Go result
value and the Go `error`. -/
structure ConsumerGroupsClient (σ : Type) where
  CreateOrUpdate : σ → String → String → String → String → ConsumerGroup →
    σ × ConsumerGroup × Option String
  Get : σ → String → String → String → String → σ × ConsumerGroup × Option String
  Delete : σ → String → String → String → String → σ × Response × Option String

/-- The field of `ArmClient` the resource uses. -/
structure ArmClient (σ : Type) where
  eventHubConsumerGroupClient : ConsumerGroupsClient σ

/-- Functions the resource calls whose bodies are outside this file:
`parseAzureResourceID` of package `azurerm` and `utils.ResponseWasNotFound`.
They are parameters of the embedding. -/
structure Helpers where
  parseAzureResourceID : String → Except String ResourceID
  ResponseWasNotFound : Response → Bool

/-- How a lifecycle function ends: `return nil`, `return err`, or a runtime
panic (a `nil` pointer dereference). -/
inductive Outcome where
  | nil
  | error (msg : String)
  | panic
deriving DecidableEq, Repr

/-- What one run of a lifecycle function leaves behind. -/
structure Run (σ : Type) where
  data : ResourceData
  remote : σ
  calls : List Call
  result : Outcome

/-! ## The lifecycle functions -/

/-- The function `resourceArmEventHubConsumerGroupRead`. -/
def resourceArmEventHubConsumerGroupRead {σ : Type} (h : Helpers) (m : ArmClient σ)
    (d : ResourceData) (s : σ) : Run σ :=
  let client := m.eventHubConsumerGroupClient
  match h.parseAzureResourceID d.Id with
  | .error err => { data := d, remote := s, calls := [], result := .error err }
  | .ok id =>
    let resGroup := id.ResourceGroup
    let namespaceName := id.path "namespaces"
    let eventHubName := id.path "eventhubs"
    let name := id.path "consumergroups"
    match client.Get s resGroup namespaceName eventHubName name with
    | (s1, resp, some err) =>
      if h.ResponseWasNotFound resp.Response then
        { data := d.SetId "", remote := s1,
          calls := [Call.Get resGroup namespaceName eventHubName name], result := .nil }
      else
        { data := d, remote := s1,
          calls := [Call.Get resGroup namespaceName eventHubName name],
          result := .error ("Error making Read request on Azure EventHub Consumer Group "
            ++ name ++ ": " ++ err) }
    | (s1, resp, none) =>
      let d1 := d.Set "name" (some name)
      let d2 := d1.Set "eventhub_name" (some eventHubName)
      let d3 := d2.Set "namespace_name" (some namespaceName)
      let d4 := d3.Set "resource_group_name" (some resGroup)
      match resp.ConsumerGroupProperties with
      | none =>
        { data := d4, remote := s1,
          calls := [Call.Get resGroup namespaceName eventHubName name], result := .panic }
      | some props =>
        { data := d4.Set "user_metadata" props.UserMetadata, remote := s1,
          calls := [Call.Get resGroup namespaceName eventHubName name], result := .nil }

/-- The function `resourceArmEventHubConsumerGroupCreateUpdate`. -/
def resourceArmEventHubConsumerGroupCreateUpdate {σ : Type} (h : Helpers) (m : ArmClient σ)
    (d : ResourceData) (s : σ) : Run σ :=
  let client := m.eventHubConsumerGroupClient
  let name := d.Get "name"
  let namespaceName := d.Get "namespace_name"
  let eventHubName := d.Get "eventhub_name"
  let resGroup := d.Get "resource_group_name"
  let userMetaData := d.Get "user_metadata"
  let parameters : ConsumerGroup :=
    { Response := { StatusCode := none },
      ConsumerGroupProperties := some { UserMetadata := some userMetaData },
      ID := none,
      Name := some name }
  let c1 := Call.CreateOrUpdate resGroup namespaceName eventHubName name parameters
  let c2 := Call.Get resGroup namespaceName eventHubName name
  match client.CreateOrUpdate s resGroup namespaceName eventHubName name parameters with
  | (s1, _, some err) => { data := d, remote := s1, calls := [c1], result := .error err }
  | (s1, _, none) =>
    match client.Get s1 resGroup namespaceName eventHubName name with
    | (s2, _, some err) => { data := d, remote := s2, calls := [c1, c2], result := .error err }
    | (s2, read, none) =>
      match read.ID with
      | none =>
        { data := d, remote := s2, calls := [c1, c2],
          result := .error ("Cannot read EventHub Consumer Group " ++ name
            ++ " (resource group " ++ resGroup ++ ") ID") }
      | some readID =>
        let r := resourceArmEventHubConsumerGroupRead h m (d.SetId readID) s2
        { r with calls := [c1, c2] ++ r.calls }

/-- The function `resourceArmEventHubConsumerGroupDelete`. -/
def resourceArmEventHubConsumerGroupDelete {σ : Type} (h : Helpers) (m : ArmClient σ)
    (d : ResourceData) (s : σ) : Run σ :=
  let client := m.eventHubConsumerGroupClient
  match h.parseAzureResourceID d.Id with
  | .error err => { data := d, remote := s, calls := [], result := .error err }
  | .ok id =>
    let resGroup := id.ResourceGroup
    let namespaceName := id.path "namespaces"
    let eventHubName := id.path "eventhubs"
    let name := id.path "consumergroups"
    match client.Delete s resGroup namespaceName eventHubName name with
    | (s1, resp, some err) =>
      if !h.ResponseWasNotFound resp then
        { data := d, remote := s1,
          calls := [Call.Delete resGroup namespaceName eventHubName name],
          result := .error ("Error issuing Azure ARM delete request of EventHub Consumer Group '"
            ++ name ++ "': " ++ err) }
      else
        { data := d, remote := s1,
          calls := [Call.Delete resGroup namespaceName eventHubName name], result := .nil }
    | (s1, _, none) =>
      { data := d, remote := s1,
        calls := [Call.Delete resGroup namespaceName eventHubName name], result := .nil }

/-- The `parameters` value `resourceArmEventHubConsumerGroupCreateUpdate` builds
from the configuration `d`. -/
def createParameters (d : ResourceData) : ConsumerGroup :=
  { Response := { StatusCode := none },
    ConsumerGroupProperties := some { UserMetadata := some (d.Get "user_metadata") },
    ID := none,
    Name := some (d.Get "name") }

/-- The upsert call `resourceArmEventHubConsumerGroupCreateUpdate` issues for `d`. -/
def upsertCall (d : ResourceData) : Call :=
  Call.CreateOrUpdate (d.Get "resource_group_name") (d.Get "namespace_name")
    (d.Get "eventhub_name") (d.Get "name") (createParameters d)

/-- The re-fetch `resourceArmEventHubConsumerGroupCreateUpdate` issues for `d`. -/
def refetchCall (d : ResourceData) : Call :=
  Call.Get (d.Get "resource_group_name") (d.Get "namespace_name")
    (d.Get "eventhub_name") (d.Get "name")

/-- The call `resourceArmEventHubConsumerGroupRead` issues for a parsed identifier. -/
def readCall (id : ResourceID) : Call :=
  Call.Get id.ResourceGroup (id.path "namespaces") (id.path "eventhubs")
    (id.path "consumergroups")

/-- The call `resourceArmEventHubConsumerGroupDelete` issues for a parsed identifier. -/
def deleteCall (id : ResourceID) : Call :=
  Call.Delete id.ResourceGroup (id.path "namespaces") (id.path "eventhubs")
    (id.path "consumergroups")

/-- The orchestrator's sequence CreateUpdate, then Read on the data and remote
state CreateUpdate left. -/
def createThenRead {σ : Type} (h : Helpers) (m : ArmClient σ) (d : ResourceData) (s : σ) :
    Run σ :=
  let c := resourceArmEventHubConsumerGroupCreateUpdate h m d s
  resourceArmEventHubConsumerGroupRead h m c.data c.remote

/-- The Go results of the upsert `resourceArmEventHubConsumerGroupCreateUpdate`
issues for `d` from the remote state `s`. -/
def upsertResult {σ : Type} (m : ArmClient σ) (d : ResourceData) (s : σ) :
    σ × ConsumerGroup × Option String :=
  m.eventHubConsumerGroupClient.CreateOrUpdate s (d.Get "resource_group_name")
    (d.Get "namespace_name") (d.Get "eventhub_name") (d.Get "name") (createParameters d)

/-- The Go results of the re-fetch that follows the upsert, from the remote
state the upsert left. -/
def refetchResult {σ : Type} (m : ArmClient σ) (d : ResourceData) (s : σ) :
    σ × ConsumerGroup × Option String :=
  m.eventHubConsumerGroupClient.Get (upsertResult m d s).1 (d.Get "resource_group_name")
    (d.Get "namespace_name") (d.Get "eventhub_name") (d.Get "name")

/-- The Go results of the get `resourceArmEventHubConsumerGroupRead` issues for a
parsed identifier from the remote state `s`. -/
def readResult {σ : Type} (m : ArmClient σ) (id : ResourceID) (s : σ) :
    σ × ConsumerGroup × Option String :=
  m.eventHubConsumerGroupClient.Get s id.ResourceGroup (id.path "namespaces")
    (id.path "eventhubs") (id.path "consumergroups")

/-- A remote service that stores what it is sent and issues the identifier
`issue` gives the key: an upsert succeeds and makes the service hold the
properties it was sent under the key (`Holds`); a get of a key the service
holds succeeds, returns the identifier of the key and the properties held, and
leaves them held. -/
structure StoresWhatSent {σ : Type} (c : ConsumerGroupsClient σ)
    (issue : String → String → String → String → String)
    (Holds : σ → String × String × String × String → Option ConsumerGroupProperties → Prop) :
    Prop where
  upsert_ok : ∀ s rg ns eh n p, (c.CreateOrUpdate s rg ns eh n p).2.2 = none
  upsert_stores : ∀ s rg ns eh n p,
    Holds (c.CreateOrUpdate s rg ns eh n p).1 (rg, ns, eh, n) p.ConsumerGroupProperties
  get_ok : ∀ s rg ns eh n props, Holds s (rg, ns, eh, n) props →
    (c.Get s rg ns eh n).2.2 = none ∧
    (c.Get s rg ns eh n).2.1.ID = some (issue rg ns eh n) ∧
    (c.Get s rg ns eh n).2.1.ConsumerGroupProperties = props
  get_keeps : ∀ s rg ns eh n props, Holds s (rg, ns, eh, n) props →
    Holds (c.Get s rg ns eh n).1 (rg, ns, eh, n) props

/-! ## The `user_metadata` schema entry -/

/-- The fields of `schema.Schema` the resource sets; `ValidateFunc` returns
`true` when it reports no error. -/
structure Schema where
  Required : Bool
  Optional : Bool
  ForceNew : Bool
  ValidateFunc : String → Bool

/-- Modelled from the spec: `validation.StringLenBetween` is library code whose
body is not part of the sources; the spec gives `user_metadata` as a string of
1–1024 characters and has lengths 0 and above 1024 rejected.  The value is
accepted exactly when its length lies between `min` and `max`, both included. -/
def StringLenBetween (min max : Nat) (v : String) : Bool :=
  !(decide (v.length < min) || decide (v.length > max))

/-- The schema entry of `"user_metadata"` in `resourceArmEventHubConsumerGroup`. -/
def userMetadataSchema : Schema :=
  { Required := false,
    Optional := true,
    ForceNew := false,
    ValidateFunc := StringLenBetween 1 1024 }

/-- Modelled from the spec: the schema check the framework applies to one
attribute of a configuration is library code whose body is not part of the
sources; by the spec an optional attribute may be omitted and a supplied value
goes through the validator.  An omitted attribute is accepted unless it is
required; a supplied one is accepted when `ValidateFunc` reports no error. -/
def Schema.accepts (sch : Schema) : Option String → Bool
  | none => !sch.Required
  | some v => sch.ValidateFunc v

/-! ## Text containment -/

/-- The message `msg` contains `part` as a contiguous piece. -/
def Contains (msg part : String) : Prop := part.data <:+: msg.data

instance (msg part : String) : Decidable (Contains msg part) := by
  unfold Contains; infer_instance

/-! ## Stand-ins for the remote service

Concrete clients and helpers on which the theorems are instantiated. -/

/-- The natural key of a consumer group: resource group, namespace, event hub, name. -/
abbrev Key := String × String × String × String

/-- The state of the in-memory service: the stored properties per key, newest first. -/
abbrev Store := List (Key × Option ConsumerGroupProperties)

/-- The newest entry stored under `k`. -/
def Store.find : Store → Key → Option (Option ConsumerGroupProperties)
  | [], _ => none
  | (k1, v) :: rest, k => if k1 = k then some v else Store.find rest k

/-- An in-memory service that stores the properties it is sent and answers a
`Get` with them and with the identifier `issue` gives the key; an absent key
is answered with status 404 and an error. -/
def memoryClient (issue : String → String → String → String → String) :
    ConsumerGroupsClient Store where
  CreateOrUpdate := fun s rg ns eh n p =>
    (((rg, ns, eh, n), p.ConsumerGroupProperties) :: s,
      { Response := { StatusCode := some 200 },
        ConsumerGroupProperties := p.ConsumerGroupProperties,
        ID := some (issue rg ns eh n), Name := some n },
      none)
  Get := fun s rg ns eh n =>
    match s.find (rg, ns, eh, n) with
    | some props =>
      (s, { Response := { StatusCode := some 200 }, ConsumerGroupProperties := props,
            ID := some (issue rg ns eh n), Name := some n }, none)
    | none =>
      (s, { Response := { StatusCode := some 404 }, ConsumerGroupProperties := none,
            ID := none, Name := none }, some "StatusCode=404")
  Delete := fun s rg ns eh n =>
    match s.find (rg, ns, eh, n) with
    | some _ =>
      (s.filter (fun e => decide (e.1 ≠ (rg, ns, eh, n))), { StatusCode := some 200 }, none)
    | none => (s, { StatusCode := some 404 }, some "StatusCode=404")

/-- A service that replays canned answers: the state is the queue of answers
still to give to `Get`; `CreateOrUpdate` always succeeds; `Delete` gives the
fixed answer `del`.  An exhausted queue answers `Get` with status 404. -/
def cannedClient (del : Response × Option String) :
    ConsumerGroupsClient (List (ConsumerGroup × Option String)) where
  CreateOrUpdate := fun s _ _ _ _ p => (s, p, none)
  Get := fun s _ _ _ _ =>
    match s with
    | a :: rest => (rest, a.1, a.2)
    | [] =>
      ([], { Response := { StatusCode := some 404 }, ConsumerGroupProperties := none,
             ID := none, Name := none }, some "StatusCode=404")
  Delete := fun s _ _ _ _ => (s, del.1, del.2)

/-- The identifier the stand-in service issues for a key. -/
def demoIssue (rg ns eh n : String) : String :=
  "/subscriptions/sub1/resourceGroups/" ++ rg ++ "/providers/Microsoft.EventHub/namespaces/"
    ++ ns ++ "/eventhubs/" ++ eh ++ "/consumergroups/" ++ n

/-- The identifier of consumer group `cg1` of event hub `eh1` in namespace `ns1`
of resource group `rg1`. -/
def demoID : String :=
  "/subscriptions/sub1/resourceGroups/rg1/providers/Microsoft.EventHub/namespaces/ns1/eventhubs/eh1/consumergroups/cg1"

/-- Stand-in helpers: the parser decomposes `demoID` and rejects every other
string; a response is not-found when its status is 404. -/
def demoHelpers : Helpers where
  parseAzureResourceID := fun id =>
    if id = demoID then
      .ok { ResourceGroup := "rg1",
            Path := [("namespaces", "ns1"), ("eventhubs", "eh1"), ("consumergroups", "cg1")] }
    else .error ("Cannot parse Azure Id: " ++ id)
  ResponseWasNotFound := fun r => decide (r.StatusCode = some 404)

/-- The identifier of the resource group `rg1`: a resource path with no
namespace, event hub or consumer-group segment. -/
def shortID : String := "/subscriptions/sub1/resourceGroups/rg1"

/-- Stand-in helpers whose parser decomposes `demoID` as `demoHelpers` does and
also `shortID`, into the resource group `rg1` and an empty `Path`; it rejects
every other string. -/
def lenientHelpers : Helpers where
  parseAzureResourceID := fun id =>
    if id = demoID then
      .ok { ResourceGroup := "rg1",
            Path := [("namespaces", "ns1"), ("eventhubs", "eh1"), ("consumergroups", "cg1")] }
    else if id = shortID then .ok { ResourceGroup := "rg1", Path := [] }
    else .error ("Cannot parse Azure Id: " ++ id)
  ResponseWasNotFound := fun r => decide (r.StatusCode = some 404)

/-- The configuration of the spec's example scenario, with no identifier yet. -/
def demoConfig : ResourceData where
  id := ""
  attrs := fun k =>
    if k = "name" then some "cg1"
    else if k = "namespace_name" then some "ns1"
    else if k = "eventhub_name" then some "eh1"
    else if k = "resource_group_name" then some "rg1"
    else if k = "user_metadata" then some "m"
    else none

/-- The same configuration with `user_metadata` omitted. -/
def demoConfigNoMetadata : ResourceData where
  id := ""
  attrs := fun k =>
    if k = "name" then some "cg1"
    else if k = "namespace_name" then some "ns1"
    else if k = "eventhub_name" then some "eh1"
    else if k = "resource_group_name" then some "rg1"
    else none

/-- The resource of the example scenario once it carries the identifier `demoID`. -/
def demoResource : ResourceData := { demoConfig with id := demoID }

/-- A resource whose identifier is not a resource path. -/
def garbageResource : ResourceData := { demoConfig with id := "garbage" }

/-- A resource whose identifier names a resource group only. -/
def shortResource : ResourceData := { demoConfig with id := shortID }

/-- A successful `Get` answer carrying the identifier `id` and the metadata `um`. -/
def okAnswer (id : Option String) (um : Option String) : ConsumerGroup × Option String :=
  ({ Response := { StatusCode := some 200 },
     ConsumerGroupProperties := some { UserMetadata := um },
     ID := id, Name := some "cg1" }, none)

/-- A failed `Get` answer with HTTP status `code` and error text `msg`. -/
def failAnswer (code : Nat) (msg : String) : ConsumerGroup × Option String :=
  ({ Response := { StatusCode := some code }, ConsumerGroupProperties := none,
     ID := none, Name := none }, some msg)

/-! ## Read, Delete: not-found and malformed identifiers -/

/-- C1: for an identifier that parses, when the remote get call fails and the
response is a not-found response, `resourceArmEventHubConsumerGroupRead` sets the
identifier to the empty string and returns no error. -/
theorem read_not_found_clears_id {σ : Type} (h : Helpers) (m : ArmClient σ)
    (d : ResourceData) (s s1 : σ) (id : ResourceID) (resp : ConsumerGroup) (err : String)
    (hparse : h.parseAzureResourceID d.Id = .ok id)
    (hget : m.eventHubConsumerGroupClient.Get s id.ResourceGroup (id.path "namespaces")
      (id.path "eventhubs") (id.path "consumergroups") = (s1, resp, some err))
    (hnf : h.ResponseWasNotFound resp.Response = true) :
    (resourceArmEventHubConsumerGroupRead h m d s).data.Id = "" ∧
    (resourceArmEventHubConsumerGroupRead h m d s).result = Outcome.nil := by
  unfold resourceArmEventHubConsumerGroupRead
  simp only [hparse, hget]
  simp [hnf, ResourceData.Id, ResourceData.SetId]

/-- Instance of C1: the in-memory service holds nothing, so the get of `demoID`
is answered with 404; Read clears the identifier and returns no error. -/
theorem read_not_found_clears_id_witness :
    (resourceArmEventHubConsumerGroupRead demoHelpers ⟨memoryClient demoIssue⟩
      demoResource []).data.Id = "" ∧
    (resourceArmEventHubConsumerGroupRead demoHelpers ⟨memoryClient demoIssue⟩
      demoResource []).result = Outcome.nil :=
  read_not_found_clears_id demoHelpers ⟨memoryClient demoIssue⟩
    demoResource [] []
    { ResourceGroup := "rg1",
      Path := [("namespaces", "ns1"), ("eventhubs", "eh1"), ("consumergroups", "cg1")] }
    (failAnswer 404 "StatusCode=404").1 "StatusCode=404" rfl rfl rfl

/-- C2: for an identifier that parses, `resourceArmEventHubConsumerGroupDelete`
returns no error when the remote delete call succeeds or its response is a
not-found response, and returns an error exactly when the call fails with a
response that is not a not-found response. -/
theorem delete_error_iff {σ : Type} (h : Helpers) (m : ArmClient σ)
    (d : ResourceData) (s : σ) (id : ResourceID)
    (hparse : h.parseAzureResourceID d.Id = .ok id) :
    ((m.eventHubConsumerGroupClient.Delete s id.ResourceGroup (id.path "namespaces")
        (id.path "eventhubs") (id.path "consumergroups")).2.2 = none ∨
      h.ResponseWasNotFound (m.eventHubConsumerGroupClient.Delete s id.ResourceGroup
        (id.path "namespaces") (id.path "eventhubs") (id.path "consumergroups")).2.1 = true →
      (resourceArmEventHubConsumerGroupDelete h m d s).result = Outcome.nil) ∧
    ((∃ msg, (resourceArmEventHubConsumerGroupDelete h m d s).result = Outcome.error msg) ↔
      ((m.eventHubConsumerGroupClient.Delete s id.ResourceGroup (id.path "namespaces")
        (id.path "eventhubs") (id.path "consumergroups")).2.2 ≠ none ∧
      h.ResponseWasNotFound (m.eventHubConsumerGroupClient.Delete s id.ResourceGroup
        (id.path "namespaces") (id.path "eventhubs") (id.path "consumergroups")).2.1 = false)) := by
  unfold resourceArmEventHubConsumerGroupDelete
  simp only [hparse]
  rcases hd : m.eventHubConsumerGroupClient.Delete s id.ResourceGroup (id.path "namespaces")
    (id.path "eventhubs") (id.path "consumergroups") with ⟨s1, resp, err⟩
  cases err with
  | none => simp
  | some e =>
    cases hnf : h.ResponseWasNotFound resp <;> simp [hnf]

/-- Instance of C2: deleting `demoID` from an empty in-memory service is
answered with 404 and an error, and Delete returns no error. -/
theorem delete_error_iff_witness :
    (resourceArmEventHubConsumerGroupDelete demoHelpers ⟨memoryClient demoIssue⟩
      demoResource []).result = Outcome.nil :=
  (delete_error_iff demoHelpers ⟨memoryClient demoIssue⟩ demoResource []
    { ResourceGroup := "rg1",
      Path := [("namespaces", "ns1"), ("eventhubs", "eh1"), ("consumergroups", "cg1")] }
    rfl).1 (Or.inr rfl)

/-! ## CreateUpdate: the identifier check -/

/-- When the upsert and the re-fetch succeed and the re-fetch returns an
identifier, CreateUpdate ends as Read does on the data carrying that identifier. -/
theorem createUpdate_runs_read {σ : Type} (h : Helpers) (m : ArmClient σ)
    (d : ResourceData) (s s1 s2 : σ) (sent read : ConsumerGroup)
    (hup : m.eventHubConsumerGroupClient.CreateOrUpdate s (d.Get "resource_group_name")
      (d.Get "namespace_name") (d.Get "eventhub_name") (d.Get "name") (createParameters d)
      = (s1, sent, none))
    (hget : m.eventHubConsumerGroupClient.Get s1 (d.Get "resource_group_name")
      (d.Get "namespace_name") (d.Get "eventhub_name") (d.Get "name") = (s2, read, none))
    (readID : String) (hid : read.ID = some readID) :
    (resourceArmEventHubConsumerGroupCreateUpdate h m d s).result
      = (resourceArmEventHubConsumerGroupRead h m (d.SetId readID) s2).result ∧
    (resourceArmEventHubConsumerGroupCreateUpdate h m d s).data
      = (resourceArmEventHubConsumerGroupRead h m (d.SetId readID) s2).data ∧
    (resourceArmEventHubConsumerGroupCreateUpdate h m d s).calls
      = [upsertCall d, refetchCall d]
        ++ (resourceArmEventHubConsumerGroupRead h m (d.SetId readID) s2).calls := by
  have hup1 := hup
  unfold createParameters at hup1
  unfold resourceArmEventHubConsumerGroupCreateUpdate
  simp only [hup1, hget, hid]
  simp [upsertCall, refetchCall, createParameters]

/-- C7: in `resourceArmEventHubConsumerGroupCreateUpdate`, when the upsert and
the re-fetch both succeed: if the fetched object has no identifier the function
returns the "Cannot read ... ID" error, leaves the resource data (identifier
included) as it was and issues nothing after the re-fetch; if it has one, the
function is exactly Read run on the data whose identifier is that string,
from the remote state the re-fetch left, after the upsert and the re-fetch. -/
theorem createUpdate_identifier_check {σ : Type} (h : Helpers) (m : ArmClient σ)
    (d : ResourceData) (s s1 s2 : σ) (sent read : ConsumerGroup)
    (hup : m.eventHubConsumerGroupClient.CreateOrUpdate s (d.Get "resource_group_name")
      (d.Get "namespace_name") (d.Get "eventhub_name") (d.Get "name") (createParameters d)
      = (s1, sent, none))
    (hget : m.eventHubConsumerGroupClient.Get s1 (d.Get "resource_group_name")
      (d.Get "namespace_name") (d.Get "eventhub_name") (d.Get "name") = (s2, read, none)) :
    (read.ID = none →
      (resourceArmEventHubConsumerGroupCreateUpdate h m d s).result
        = Outcome.error ("Cannot read EventHub Consumer Group " ++ d.Get "name"
            ++ " (resource group " ++ d.Get "resource_group_name" ++ ") ID") ∧
      (resourceArmEventHubConsumerGroupCreateUpdate h m d s).data = d ∧
      (resourceArmEventHubConsumerGroupCreateUpdate h m d s).calls
        = [upsertCall d, refetchCall d] ∧
      (resourceArmEventHubConsumerGroupCreateUpdate h m d s).remote = s2) ∧
    (∀ readID, read.ID = some readID →
      (d.SetId readID).Id = readID ∧
      (resourceArmEventHubConsumerGroupCreateUpdate h m d s).data
        = (resourceArmEventHubConsumerGroupRead h m (d.SetId readID) s2).data ∧
      (resourceArmEventHubConsumerGroupCreateUpdate h m d s).remote
        = (resourceArmEventHubConsumerGroupRead h m (d.SetId readID) s2).remote ∧
      (resourceArmEventHubConsumerGroupCreateUpdate h m d s).result
        = (resourceArmEventHubConsumerGroupRead h m (d.SetId readID) s2).result ∧
      (resourceArmEventHubConsumerGroupCreateUpdate h m d s).calls
        = [upsertCall d, refetchCall d]
          ++ (resourceArmEventHubConsumerGroupRead h m (d.SetId readID) s2).calls) := by
  have hup1 := hup
  unfold createParameters at hup1
  constructor
  · intro hid
    unfold resourceArmEventHubConsumerGroupCreateUpdate
    simp only [hup1, hget, hid]
    simp [upsertCall, refetchCall, createParameters]
  · intro readID hid
    unfold resourceArmEventHubConsumerGroupCreateUpdate
    simp only [hup1, hget, hid]
    simp [upsertCall, refetchCall, createParameters, ResourceData.Id, ResourceData.SetId]

/-- Instance of C7: the service answers the re-fetch without an identifier;
CreateUpdate returns the error, the identifier stays empty and only the upsert
and the re-fetch are issued. -/
theorem createUpdate_identifier_check_witness :
    (resourceArmEventHubConsumerGroupCreateUpdate demoHelpers ⟨cannedClient (⟨none⟩, none)⟩
        demoConfig [okAnswer none (some "m")]).result
      = Outcome.error "Cannot read EventHub Consumer Group cg1 (resource group rg1) ID" ∧
    (resourceArmEventHubConsumerGroupCreateUpdate demoHelpers ⟨cannedClient (⟨none⟩, none)⟩
        demoConfig [okAnswer none (some "m")]).data = demoConfig ∧
    (resourceArmEventHubConsumerGroupCreateUpdate demoHelpers ⟨cannedClient (⟨none⟩, none)⟩
        demoConfig [okAnswer none (some "m")]).calls
      = [upsertCall demoConfig, refetchCall demoConfig] ∧
    (resourceArmEventHubConsumerGroupCreateUpdate demoHelpers ⟨cannedClient (⟨none⟩, none)⟩
        demoConfig [okAnswer none (some "m")]).remote = [] :=
  (createUpdate_identifier_check demoHelpers ⟨cannedClient (⟨none⟩, none)⟩ demoConfig
    [okAnswer none (some "m")] [okAnswer none (some "m")] [] (createParameters demoConfig)
    (okAnswer none (some "m")).1 rfl rfl).1 rfl

/-! ## Read: where the written attributes come from -/

/-- C10: on the success path of `resourceArmEventHubConsumerGroupRead` (the
identifier parses and the get returns no error) `name`, `eventhub_name`,
`namespace_name` and `resource_group_name` are written from the parsed
identifier; two runs on the same resource data whose gets both succeed, on any
two clients and remote states, leave the same identifier and the same value of
every attribute other than `user_metadata`; and `user_metadata` is the value of
the response's properties. -/
theorem read_attributes_from_identifier {σ τ : Type} (h : Helpers) (d : ResourceData)
    (id : ResourceID) (m : ArmClient σ) (s : σ) (m2 : ArmClient τ) (s2 : τ)
    (hparse : h.parseAzureResourceID d.Id = .ok id)
    (hok : (m.eventHubConsumerGroupClient.Get s id.ResourceGroup (id.path "namespaces")
      (id.path "eventhubs") (id.path "consumergroups")).2.2 = none)
    (hok2 : (m2.eventHubConsumerGroupClient.Get s2 id.ResourceGroup (id.path "namespaces")
      (id.path "eventhubs") (id.path "consumergroups")).2.2 = none) :
    (resourceArmEventHubConsumerGroupRead h m d s).data.attrs "name"
      = some (id.path "consumergroups") ∧
    (resourceArmEventHubConsumerGroupRead h m d s).data.attrs "eventhub_name"
      = some (id.path "eventhubs") ∧
    (resourceArmEventHubConsumerGroupRead h m d s).data.attrs "namespace_name"
      = some (id.path "namespaces") ∧
    (resourceArmEventHubConsumerGroupRead h m d s).data.attrs "resource_group_name"
      = some id.ResourceGroup ∧
    (resourceArmEventHubConsumerGroupRead h m d s).data.Id
      = (resourceArmEventHubConsumerGroupRead h m2 d s2).data.Id ∧
    (∀ key, key ≠ "user_metadata" →
      (resourceArmEventHubConsumerGroupRead h m d s).data.attrs key
        = (resourceArmEventHubConsumerGroupRead h m2 d s2).data.attrs key) ∧
    (∀ props, (m.eventHubConsumerGroupClient.Get s id.ResourceGroup (id.path "namespaces")
        (id.path "eventhubs") (id.path "consumergroups")).2.1.ConsumerGroupProperties
          = some props →
      (resourceArmEventHubConsumerGroupRead h m d s).data.attrs "user_metadata"
        = props.UserMetadata) := by
  rcases hg : m.eventHubConsumerGroupClient.Get s id.ResourceGroup (id.path "namespaces")
    (id.path "eventhubs") (id.path "consumergroups") with ⟨t1, resp, e1⟩
  rcases hg2 : m2.eventHubConsumerGroupClient.Get s2 id.ResourceGroup (id.path "namespaces")
    (id.path "eventhubs") (id.path "consumergroups") with ⟨t2, resp2, e2⟩
  rw [hg] at hok
  rw [hg2] at hok2
  simp only at hok hok2
  subst hok
  subst hok2
  unfold resourceArmEventHubConsumerGroupRead
  simp only [hparse, hg, hg2]
  cases hp : resp.ConsumerGroupProperties <;> cases hp2 : resp2.ConsumerGroupProperties <;>
    simp [ResourceData.Set, ResourceData.Id] <;>
    intro key hkey <;> simp [hkey]

/-- Instance of C10: two canned services answer the get of `demoID` with
different objects; both runs write the four attributes from the identifier. -/
theorem read_attributes_from_identifier_witness :
    (resourceArmEventHubConsumerGroupRead demoHelpers ⟨cannedClient (⟨none⟩, none)⟩
      demoResource [okAnswer (some "x") (some "one")]).data.attrs "name" = some "cg1" ∧
    (resourceArmEventHubConsumerGroupRead demoHelpers ⟨cannedClient (⟨none⟩, none)⟩
      demoResource [okAnswer (some "x") (some "one")]).data.attrs "resource_group_name"
      = some "rg1" ∧
    (resourceArmEventHubConsumerGroupRead demoHelpers ⟨cannedClient (⟨none⟩, none)⟩
      demoResource [okAnswer (some "x") (some "one")]).data.attrs "name"
      = (resourceArmEventHubConsumerGroupRead demoHelpers ⟨cannedClient (⟨none⟩, none)⟩
      demoResource [okAnswer none none]).data.attrs "name" ∧
    (resourceArmEventHubConsumerGroupRead demoHelpers ⟨cannedClient (⟨none⟩, none)⟩
      demoResource [okAnswer (some "x") (some "one")]).data.attrs "user_metadata"
      = some "one" :=
  have w := read_attributes_from_identifier demoHelpers demoResource
    { ResourceGroup := "rg1",
      Path := [("namespaces", "ns1"), ("eventhubs", "eh1"), ("consumergroups", "cg1")] }
    ⟨cannedClient (⟨none⟩, none)⟩ [okAnswer (some "x") (some "one")]
    ⟨cannedClient (⟨none⟩, none)⟩ [okAnswer none none] rfl rfl rfl
  ⟨w.1, w.2.2.2.1, w.2.2.2.2.2.1 "name" (by decide), w.2.2.2.2.2.2 ⟨some "one"⟩ rfl⟩

/-! ## CreateUpdate followed by Read -/

/-- The in-memory service stores what it is sent and issues `issue key`. -/
theorem memoryClient_storesWhatSent (issue : String → String → String → String → String) :
    StoresWhatSent (memoryClient issue) issue (fun s k props => Store.find s k = some props) where
  upsert_ok := fun _ _ _ _ _ _ => rfl
  upsert_stores := by
    intro s rg ns eh n p
    simp [memoryClient, Store.find]
  get_ok := by
    intro s rg ns eh n props hfind
    simp [memoryClient, hfind]
  get_keeps := by
    intro s rg ns eh n props hfind
    simp [memoryClient, hfind]

/-- C4: on a remote service that stores what it is sent and issues for each key
an identifier that parses back to that key, for every configuration `d`,
`resourceArmEventHubConsumerGroupCreateUpdate` followed by
`resourceArmEventHubConsumerGroupRead` both return no error and leave the
identifier issued for the key and the five attributes `name`, `eventhub_name`,
`namespace_name`, `resource_group_name`, `user_metadata` equal to the values of
the configuration; `user_metadata` is the empty string when it was omitted. -/
theorem create_then_read_roundtrip {σ : Type} (h : Helpers) (m : ArmClient σ)
    (issue : String → String → String → String → String)
    (Holds : σ → String × String × String × String → Option ConsumerGroupProperties → Prop)
    (hstore : StoresWhatSent m.eventHubConsumerGroupClient issue Holds)
    (d : ResourceData) (s : σ) (id : ResourceID)
    (hparse : h.parseAzureResourceID (issue (d.Get "resource_group_name")
      (d.Get "namespace_name") (d.Get "eventhub_name") (d.Get "name")) = .ok id)
    (hrg : id.ResourceGroup = d.Get "resource_group_name")
    (hns : id.path "namespaces" = d.Get "namespace_name")
    (heh : id.path "eventhubs" = d.Get "eventhub_name")
    (hn : id.path "consumergroups" = d.Get "name") :
    (resourceArmEventHubConsumerGroupCreateUpdate h m d s).result = Outcome.nil ∧
    (createThenRead h m d s).result = Outcome.nil ∧
    (createThenRead h m d s).data.Id = issue (d.Get "resource_group_name")
      (d.Get "namespace_name") (d.Get "eventhub_name") (d.Get "name") ∧
    (createThenRead h m d s).data.Get "name" = d.Get "name" ∧
    (createThenRead h m d s).data.Get "eventhub_name" = d.Get "eventhub_name" ∧
    (createThenRead h m d s).data.Get "namespace_name" = d.Get "namespace_name" ∧
    (createThenRead h m d s).data.Get "resource_group_name" = d.Get "resource_group_name" ∧
    (createThenRead h m d s).data.Get "user_metadata" = d.Get "user_metadata" ∧
    (d.attrs "user_metadata" = none → (createThenRead h m d s).data.Get "user_metadata" = "") := by
  generalize hrgv : d.Get "resource_group_name" = rg at *
  generalize hnsv : d.Get "namespace_name" = ns at *
  generalize hehv : d.Get "eventhub_name" = eh at *
  generalize hnv : d.Get "name" = n at *
  generalize humv : d.Get "user_metadata" = um at *
  have hum0 : d.attrs "user_metadata" = none → um = "" := by
    intro hnone
    rw [← humv]
    simp [ResourceData.Get, hnone]
  -- the upsert
  have hp : createParameters d = (⟨⟨none⟩, some ⟨some um⟩, none, some n⟩ : ConsumerGroup) := by
    simp [createParameters, humv, hnv]
  have u1 := hstore.upsert_ok s rg ns eh n (createParameters d)
  have u2 := hstore.upsert_stores s rg ns eh n (createParameters d)
  rw [hp] at u1 u2
  rcases hcu : m.eventHubConsumerGroupClient.CreateOrUpdate s rg ns eh n
    (⟨⟨none⟩, some ⟨some um⟩, none, some n⟩ : ConsumerGroup) with ⟨s1, sent, e1⟩
  rw [hcu] at u1 u2
  simp only at u1 u2
  subst u1
  -- the re-fetch
  obtain ⟨g1, g2, g3⟩ := hstore.get_ok s1 rg ns eh n _ u2
  have k1 := hstore.get_keeps s1 rg ns eh n _ u2
  rcases hg1 : m.eventHubConsumerGroupClient.Get s1 rg ns eh n with ⟨s2, read1, e2⟩
  rw [hg1] at g1 g2 g3 k1
  simp only at g1 g2 g3 k1
  subst g1
  -- the get of the Read inside CreateUpdate
  obtain ⟨g4, _, g6⟩ := hstore.get_ok s2 rg ns eh n _ k1
  have k2 := hstore.get_keeps s2 rg ns eh n _ k1
  rcases hg2 : m.eventHubConsumerGroupClient.Get s2 rg ns eh n with ⟨s3, read2, e3⟩
  rw [hg2] at g4 g6 k2
  simp only at g4 g6 k2
  subst g4
  -- the get of the Read that follows
  obtain ⟨g7, _, g9⟩ := hstore.get_ok s3 rg ns eh n _ k2
  rcases hg3 : m.eventHubConsumerGroupClient.Get s3 rg ns eh n with ⟨s4, read3, e4⟩
  rw [hg3] at g7 g9
  simp only at g7 g9
  subst g7
  have hcreate : resourceArmEventHubConsumerGroupCreateUpdate h m d s =
      { data := ((((((d.SetId (issue rg ns eh n)).Set "name" (some n)).Set "eventhub_name"
          (some eh)).Set "namespace_name" (some ns)).Set "resource_group_name" (some rg)).Set
          "user_metadata" (some um)),
        remote := s3,
        calls := [Call.CreateOrUpdate rg ns eh n ⟨⟨none⟩, some ⟨some um⟩, none, some n⟩,
          Call.Get rg ns eh n, Call.Get rg ns eh n],
        result := Outcome.nil } := by
    unfold resourceArmEventHubConsumerGroupCreateUpdate
    simp only [hrgv, hnsv, hehv, hnv, humv, hcu, hg1, g2]
    unfold resourceArmEventHubConsumerGroupRead
    have hid : (d.SetId (issue rg ns eh n)).Id = issue rg ns eh n := rfl
    simp only [hid, hparse, hrg, hns, heh, hn, hg2, g6]
    simp
  unfold createThenRead
  simp only [hcreate]
  unfold resourceArmEventHubConsumerGroupRead
  have hid2 : ((((((d.SetId (issue rg ns eh n)).Set "name" (some n)).Set "eventhub_name"
          (some eh)).Set "namespace_name" (some ns)).Set "resource_group_name" (some rg)).Set
          "user_metadata" (some um)).Id = issue rg ns eh n := rfl
  simp only [hid2, hparse, hrg, hns, heh, hn, hg3, g9]
  refine ⟨trivial, trivial, rfl, ?_, ?_, ?_, ?_, ?_, ?_⟩
  · simp [ResourceData.Get, ResourceData.Set]
  · simp [ResourceData.Get, ResourceData.Set]
  · simp [ResourceData.Get, ResourceData.Set]
  · simp [ResourceData.Get, ResourceData.Set]
  · simp [ResourceData.Get, ResourceData.Set]
  · intro hnone
    simp [ResourceData.Get, ResourceData.Set, hum0 hnone]

/-- Instance of C4: the spec's example scenario on the in-memory service.
CreateUpdate followed by Read returns no error, the identifier is `demoID` and
the five attributes are `cg1`, `eh1`, `ns1`, `rg1`, `m`; with `user_metadata`
omitted, it reads back as the empty string. -/
theorem create_then_read_roundtrip_witness :
    ((resourceArmEventHubConsumerGroupCreateUpdate demoHelpers ⟨memoryClient demoIssue⟩
        demoConfig []).result = Outcome.nil ∧
      (createThenRead demoHelpers ⟨memoryClient demoIssue⟩ demoConfig []).result = Outcome.nil ∧
      (createThenRead demoHelpers ⟨memoryClient demoIssue⟩ demoConfig []).data.Id = demoID ∧
      (createThenRead demoHelpers ⟨memoryClient demoIssue⟩ demoConfig []).data.Get "name"
        = "cg1" ∧
      (createThenRead demoHelpers ⟨memoryClient demoIssue⟩ demoConfig []).data.Get
        "eventhub_name" = "eh1" ∧
      (createThenRead demoHelpers ⟨memoryClient demoIssue⟩ demoConfig []).data.Get
        "namespace_name" = "ns1" ∧
      (createThenRead demoHelpers ⟨memoryClient demoIssue⟩ demoConfig []).data.Get
        "resource_group_name" = "rg1" ∧
      (createThenRead demoHelpers ⟨memoryClient demoIssue⟩ demoConfig []).data.Get
        "user_metadata" = "m") ∧
    (createThenRead demoHelpers ⟨memoryClient demoIssue⟩ demoConfigNoMetadata []).data.Get
      "user_metadata" = "" :=
  have w := create_then_read_roundtrip demoHelpers ⟨memoryClient demoIssue⟩ demoIssue
    (fun s k props => Store.find s k = some props) (memoryClient_storesWhatSent demoIssue)
    demoConfig []
    { ResourceGroup := "rg1",
      Path := [("namespaces", "ns1"), ("eventhubs", "eh1"), ("consumergroups", "cg1")] }
    rfl rfl rfl rfl rfl
  have w2 := create_then_read_roundtrip demoHelpers ⟨memoryClient demoIssue⟩ demoIssue
    (fun s k props => Store.find s k = some props) (memoryClient_storesWhatSent demoIssue)
    demoConfigNoMetadata []
    { ResourceGroup := "rg1",
      Path := [("namespaces", "ns1"), ("eventhubs", "eh1"), ("consumergroups", "cg1")] }
    rfl rfl rfl rfl rfl
  ⟨⟨w.1, w.2.1, w.2.2.1, w.2.2.2.1, w.2.2.2.2.1, w.2.2.2.2.2.1, w.2.2.2.2.2.2.1,
    w.2.2.2.2.2.2.2.1⟩, w2.2.2.2.2.2.2.2.2 rfl⟩

/-! ## What an error leaves behind -/

/-- C5, the claim fails: the upsert and the re-fetch succeed, the re-fetch
returns `demoID`, and the get inside the trailing Read fails with status 500.
CreateUpdate returns an error and the identifier, empty before the run, is
`demoID` after it. -/
theorem createUpdate_error_changes_id :
    (resourceArmEventHubConsumerGroupCreateUpdate demoHelpers ⟨cannedClient (⟨none⟩, none)⟩
        demoConfig [okAnswer (some demoID) (some "m"), failAnswer 500 "boom"]).result
      = Outcome.error "Error making Read request on Azure EventHub Consumer Group cg1: boom" ∧
    (resourceArmEventHubConsumerGroupCreateUpdate demoHelpers ⟨cannedClient (⟨none⟩, none)⟩
        demoConfig [okAnswer (some demoID) (some "m"), failAnswer 500 "boom"]).data.Id
      = demoID ∧
    demoConfig.Id = "" ∧
    (resourceArmEventHubConsumerGroupCreateUpdate demoHelpers ⟨cannedClient (⟨none⟩, none)⟩
        demoConfig [okAnswer (some demoID) (some "m"), failAnswer 500 "boom"]).data.Id
      ≠ demoConfig.Id := by
  refine ⟨by decide, by decide, by decide, by decide⟩

/-- Read returns an error only with the resource data untouched. -/
theorem read_error_keeps_data {σ : Type} (h : Helpers) (m : ArmClient σ)
    (d : ResourceData) (s : σ) (msg : String)
    (herr : (resourceArmEventHubConsumerGroupRead h m d s).result = Outcome.error msg) :
    (resourceArmEventHubConsumerGroupRead h m d s).data = d := by
  unfold resourceArmEventHubConsumerGroupRead at herr ⊢
  cases hparse : h.parseAzureResourceID d.Id with
  | error e => simp only [hparse]
  | ok id =>
    simp only [hparse] at herr ⊢
    rcases hg : m.eventHubConsumerGroupClient.Get s id.ResourceGroup (id.path "namespaces")
      (id.path "eventhubs") (id.path "consumergroups") with ⟨s1, resp, e⟩
    simp only [hg] at herr ⊢
    cases e with
    | some e1 =>
      cases hnf : h.ResponseWasNotFound resp.Response
      · simp [hnf]
      · simp [hnf] at herr
    | none =>
      simp only at herr
      cases hp : resp.ConsumerGroupProperties <;> simp [hp] at herr

/-- Read leaves the identifier as it was, except on its not-found path: there
the identifier parses, the get returns an error with a not-found response, and
Read leaves the data with the identifier cleared and returns no error. -/
theorem read_id_changes_only_when_not_found {σ : Type} (h : Helpers) (m : ArmClient σ)
    (d : ResourceData) (s : σ) :
    (resourceArmEventHubConsumerGroupRead h m d s).data.Id = d.Id ∨
    (∃ id err, h.parseAzureResourceID d.Id = .ok id ∧
      (readResult m id s).2.2 = some err ∧
      h.ResponseWasNotFound (readResult m id s).2.1.Response = true ∧
      (resourceArmEventHubConsumerGroupRead h m d s).data = d.SetId "" ∧
      (resourceArmEventHubConsumerGroupRead h m d s).result = Outcome.nil) := by
  unfold resourceArmEventHubConsumerGroupRead
  cases hparse : h.parseAzureResourceID d.Id with
  | error e => simp only [hparse]; simp
  | ok id =>
    simp only [hparse]
    rcases hg : m.eventHubConsumerGroupClient.Get s id.ResourceGroup (id.path "namespaces")
      (id.path "eventhubs") (id.path "consumergroups") with ⟨s1, resp, e⟩
    cases e with
    | some e1 =>
      cases hnf : h.ResponseWasNotFound resp.Response
      · simp [hnf]
      · right
        refine ⟨id, e1, rfl, ?_, ?_, ?_, ?_⟩
        · simp [readResult, hg]
        · simp [readResult, hg, hnf]
        · simp [hnf]
        · simp [hnf]
    | none =>
      cases hp : resp.ConsumerGroupProperties <;>
        simp [hp, ResourceData.Id, ResourceData.Set]

/-- C5 as amended: an error returned by Read leaves the resource data
(identifier and attributes) as it was; Read changes the identifier only on its
not-found path (the get returned an error with a not-found response), where it
clears it and returns no error; Delete never changes the resource data; when
the upsert fails, the re-fetch fails or the fetched object has no identifier,
CreateUpdate returns an error and leaves the resource data as it was; when the
upsert and the re-fetch succeed and the fetched object has an identifier, an
error returned by CreateUpdate is the error of the Read it ends with, and the
resource data is the original with its identifier replaced by the fetched one. -/
theorem error_leaves_state {σ : Type} (h : Helpers) (m : ArmClient σ)
    (d : ResourceData) (s : σ) :
    (∀ msg, (resourceArmEventHubConsumerGroupRead h m d s).result = Outcome.error msg →
      (resourceArmEventHubConsumerGroupRead h m d s).data = d) ∧
    ((resourceArmEventHubConsumerGroupRead h m d s).data.Id = d.Id ∨
      (∃ id err, h.parseAzureResourceID d.Id = .ok id ∧
        (readResult m id s).2.2 = some err ∧
        h.ResponseWasNotFound (readResult m id s).2.1.Response = true ∧
        (resourceArmEventHubConsumerGroupRead h m d s).data = d.SetId "" ∧
        (resourceArmEventHubConsumerGroupRead h m d s).result = Outcome.nil)) ∧
    (resourceArmEventHubConsumerGroupDelete h m d s).data = d ∧
    (((upsertResult m d s).2.2 ≠ none ∨ (refetchResult m d s).2.2 ≠ none ∨
        (refetchResult m d s).2.1.ID = none) →
      (resourceArmEventHubConsumerGroupCreateUpdate h m d s).data = d ∧
      ∃ msg, (resourceArmEventHubConsumerGroupCreateUpdate h m d s).result
        = Outcome.error msg) ∧
    (∀ readID msg, (upsertResult m d s).2.2 = none → (refetchResult m d s).2.2 = none →
      (refetchResult m d s).2.1.ID = some readID →
      (resourceArmEventHubConsumerGroupCreateUpdate h m d s).result = Outcome.error msg →
      (resourceArmEventHubConsumerGroupCreateUpdate h m d s).data = d.SetId readID ∧
      (resourceArmEventHubConsumerGroupRead h m (d.SetId readID)
        (refetchResult m d s).1).result = Outcome.error msg) := by
  refine ⟨fun msg herr => read_error_keeps_data h m d s msg herr,
    read_id_changes_only_when_not_found h m d s, ?_, ?_, ?_⟩
  · unfold resourceArmEventHubConsumerGroupDelete
    cases hparse : h.parseAzureResourceID d.Id with
    | error e => simp only [hparse]
    | ok id =>
      simp only [hparse]
      rcases hd : m.eventHubConsumerGroupClient.Delete s id.ResourceGroup (id.path "namespaces")
        (id.path "eventhubs") (id.path "consumergroups") with ⟨s1, resp, e⟩
      cases e with
      | none => simp
      | some e1 => cases hnf : h.ResponseWasNotFound resp <;> simp [hnf]
  · intro hcase
    unfold refetchResult at hcase
    unfold upsertResult at hcase
    rcases hcu : m.eventHubConsumerGroupClient.CreateOrUpdate s (d.Get "resource_group_name")
      (d.Get "namespace_name") (d.Get "eventhub_name") (d.Get "name") (createParameters d)
      with ⟨s1, sent, e1⟩
    rw [hcu] at hcase
    have hcu1 := hcu
    unfold createParameters at hcu1
    cases e1 with
    | some e =>
      unfold resourceArmEventHubConsumerGroupCreateUpdate
      simp only [hcu1]
      simp
    | none =>
      rcases hg : m.eventHubConsumerGroupClient.Get s1 (d.Get "resource_group_name")
        (d.Get "namespace_name") (d.Get "eventhub_name") (d.Get "name") with ⟨s2, read, e2⟩
      rw [hg] at hcase
      cases e2 with
      | some e =>
        unfold resourceArmEventHubConsumerGroupCreateUpdate
        simp only [hcu1, hg]
        simp
      | none =>
        cases hid : read.ID with
        | none =>
          unfold resourceArmEventHubConsumerGroupCreateUpdate
          simp only [hcu1, hg, hid]
          simp
        | some readID => simp [hid] at hcase
  · intro readID msg hu hgerr hid herr
    unfold refetchResult at hgerr hid ⊢
    unfold upsertResult at hu hgerr hid ⊢
    rcases hcu : m.eventHubConsumerGroupClient.CreateOrUpdate s (d.Get "resource_group_name")
      (d.Get "namespace_name") (d.Get "eventhub_name") (d.Get "name") (createParameters d)
      with ⟨s1, sent, e1⟩
    rw [hcu] at hu hgerr hid
    simp only at hu hgerr hid ⊢
    subst hu
    rcases hg : m.eventHubConsumerGroupClient.Get s1 (d.Get "resource_group_name")
      (d.Get "namespace_name") (d.Get "eventhub_name") (d.Get "name") with ⟨s2, read, e2⟩
    rw [hg] at hgerr hid
    simp only at hgerr hid ⊢
    subst hgerr
    have hrun := createUpdate_runs_read h m d s s1 s2 sent read hcu hg readID hid
    rw [hrun.1] at herr
    have hkeep := read_error_keeps_data h m (d.SetId readID) s2 msg herr
    rw [hrun.2.1, hkeep]
    exact ⟨rfl, herr⟩

/-- Instance of C5 as amended: the upsert and the re-fetch succeed, the re-fetch
returns `demoID` and the get of the trailing Read fails with status 500;
CreateUpdate leaves the example configuration with the identifier `demoID`, and
the error is the one of that Read. -/
theorem error_leaves_state_witness :
    (resourceArmEventHubConsumerGroupCreateUpdate demoHelpers ⟨cannedClient (⟨none⟩, none)⟩
        demoConfig [okAnswer (some demoID) (some "m"), failAnswer 500 "boom"]).data
      = demoConfig.SetId demoID ∧
    (resourceArmEventHubConsumerGroupRead demoHelpers ⟨cannedClient (⟨none⟩, none)⟩
        (demoConfig.SetId demoID) [failAnswer 500 "boom"]).result
      = Outcome.error "Error making Read request on Azure EventHub Consumer Group cg1: boom" :=
  (error_leaves_state demoHelpers ⟨cannedClient (⟨none⟩, none)⟩ demoConfig
    [okAnswer (some demoID) (some "m"), failAnswer 500 "boom"]).2.2.2.2 demoID
    "Error making Read request on Azure EventHub Consumer Group cg1: boom" rfl rfl rfl rfl

/-! ## Error messages -/

/-- A text contains the piece placed between a prefix and a suffix. -/
theorem contains_middle (a b c : String) : Contains (a ++ b ++ c) b := by
  unfold Contains
  exact ⟨a.data, c.data, by simp [String.data_append]⟩

/-- A text contains the piece it ends with. -/
theorem contains_end (a b : String) : Contains (a ++ b) b := by
  unfold Contains
  exact ⟨a.data, [], by simp [String.data_append]⟩

/-- C6, the claim fails: the get of Read on `demoID` fails with status 500 and
error text `boom`; the message Read returns names the consumer group `cg1` and
does not contain the resource group `rg1`. -/
theorem read_error_omits_resource_group :
    (resourceArmEventHubConsumerGroupRead demoHelpers ⟨cannedClient (⟨none⟩, none)⟩
        demoResource [failAnswer 500 "boom"]).result
      = Outcome.error "Error making Read request on Azure EventHub Consumer Group cg1: boom" ∧
    demoHelpers.parseAzureResourceID demoResource.Id
      = .ok { ResourceGroup := "rg1",
              Path := [("namespaces", "ns1"), ("eventhubs", "eh1"), ("consumergroups", "cg1")] } ∧
    ¬ Contains "Error making Read request on Azure EventHub Consumer Group cg1: boom" "rg1" := by
  refine ⟨by decide, rfl, by decide⟩

/-- C6 as amended: for an identifier that parses, the error Read returns for a
failed get whose response is not a not-found response is exactly
`Error making Read request on Azure EventHub Consumer Group NAME: ERR`, and the
error Delete returns for such a failed delete is exactly
`Error issuing Azure ARM delete request of EventHub Consumer Group 'NAME': ERR`,
where NAME is the consumer-group name of the identifier and ERR the text of the
client's error; both messages contain NAME and ERR, and nothing else is put
into them.  CreateUpdate returns the client's error of a failed upsert, and of
a failed re-fetch, as it is. -/
theorem remote_error_messages {σ : Type} (h : Helpers) (m : ArmClient σ)
    (d : ResourceData) (s s1 : σ) (err : String) :
    (∀ id resp, h.parseAzureResourceID d.Id = .ok id →
      m.eventHubConsumerGroupClient.Get s id.ResourceGroup (id.path "namespaces")
        (id.path "eventhubs") (id.path "consumergroups") = (s1, resp, some err) →
      h.ResponseWasNotFound resp.Response = false →
      (resourceArmEventHubConsumerGroupRead h m d s).result
        = Outcome.error ("Error making Read request on Azure EventHub Consumer Group "
            ++ id.path "consumergroups" ++ ": " ++ err) ∧
      Contains ("Error making Read request on Azure EventHub Consumer Group "
        ++ id.path "consumergroups" ++ ": " ++ err) (id.path "consumergroups") ∧
      Contains ("Error making Read request on Azure EventHub Consumer Group "
        ++ id.path "consumergroups" ++ ": " ++ err) err) ∧
    (∀ id resp, h.parseAzureResourceID d.Id = .ok id →
      m.eventHubConsumerGroupClient.Delete s id.ResourceGroup (id.path "namespaces")
        (id.path "eventhubs") (id.path "consumergroups") = (s1, resp, some err) →
      h.ResponseWasNotFound resp = false →
      (resourceArmEventHubConsumerGroupDelete h m d s).result
        = Outcome.error ("Error issuing Azure ARM delete request of EventHub Consumer Group '"
            ++ id.path "consumergroups" ++ "': " ++ err) ∧
      Contains ("Error issuing Azure ARM delete request of EventHub Consumer Group '"
        ++ id.path "consumergroups" ++ "': " ++ err) (id.path "consumergroups") ∧
      Contains ("Error issuing Azure ARM delete request of EventHub Consumer Group '"
        ++ id.path "consumergroups" ++ "': " ++ err) err) ∧
    (∀ sent, m.eventHubConsumerGroupClient.CreateOrUpdate s (d.Get "resource_group_name")
        (d.Get "namespace_name") (d.Get "eventhub_name") (d.Get "name") (createParameters d)
        = (s1, sent, some err) →
      (resourceArmEventHubConsumerGroupCreateUpdate h m d s).result = Outcome.error err) ∧
    (∀ s0 sent read, m.eventHubConsumerGroupClient.CreateOrUpdate s (d.Get "resource_group_name")
        (d.Get "namespace_name") (d.Get "eventhub_name") (d.Get "name") (createParameters d)
        = (s0, sent, none) →
      m.eventHubConsumerGroupClient.Get s0 (d.Get "resource_group_name")
        (d.Get "namespace_name") (d.Get "eventhub_name") (d.Get "name") = (s1, read, some err) →
      (resourceArmEventHubConsumerGroupCreateUpdate h m d s).result = Outcome.error err) := by
  refine ⟨?_, ?_, ?_, ?_⟩
  · intro id resp hparse hget hnf
    refine ⟨?_, ?_, ?_⟩
    · unfold resourceArmEventHubConsumerGroupRead
      simp only [hparse, hget]
      simp [hnf]
    · rw [String.append_assoc]
      exact contains_middle _ _ _
    · exact contains_end _ _
  · intro id resp hparse hdel hnf
    refine ⟨?_, ?_, ?_⟩
    · unfold resourceArmEventHubConsumerGroupDelete
      simp only [hparse, hdel]
      simp [hnf]
    · rw [String.append_assoc]
      exact contains_middle _ _ _
    · exact contains_end _ _
  · intro sent hup
    unfold createParameters at hup
    unfold resourceArmEventHubConsumerGroupCreateUpdate
    simp only [hup]
  · intro s0 sent read hup hget
    unfold createParameters at hup
    unfold resourceArmEventHubConsumerGroupCreateUpdate
    simp only [hup, hget]

/-- Instance of C6 as amended: the get of Read on `demoID` fails with status 500
and text `boom`; the message is the Read format filled with `cg1` and `boom`
and contains both. -/
theorem remote_error_messages_witness :
    (resourceArmEventHubConsumerGroupRead demoHelpers ⟨cannedClient (⟨none⟩, none)⟩
        demoResource [failAnswer 500 "boom"]).result
      = Outcome.error "Error making Read request on Azure EventHub Consumer Group cg1: boom" ∧
    Contains "Error making Read request on Azure EventHub Consumer Group cg1: boom" "cg1" ∧
    Contains "Error making Read request on Azure EventHub Consumer Group cg1: boom" "boom" :=
  (remote_error_messages demoHelpers ⟨cannedClient (⟨none⟩, none)⟩ demoResource
    [failAnswer 500 "boom"] [] "boom").1
    { ResourceGroup := "rg1",
      Path := [("namespaces", "ns1"), ("eventhubs", "eh1"), ("consumergroups", "cg1")] }
    (failAnswer 500 "boom").1 rfl rfl rfl

/-! ## The `user_metadata` validator -/

/-- C8: the `user_metadata` validator rejects every string of length 0 and
every string longer than 1024, and accepts every string of length 1 to 1024;
the schema accepts a configuration that omits `user_metadata`; and for such a
configuration the first call of
`resourceArmEventHubConsumerGroupCreateUpdate` is the upsert with the empty
string as metadata. -/
theorem user_metadata_validation :
    (∀ v : String, v.length = 0 → userMetadataSchema.ValidateFunc v = false) ∧
    (∀ v : String, 1024 < v.length → userMetadataSchema.ValidateFunc v = false) ∧
    (∀ v : String, 1 ≤ v.length → v.length ≤ 1024 →
      userMetadataSchema.ValidateFunc v = true) ∧
    userMetadataSchema.accepts none = true ∧
    (∀ (σ : Type) (h : Helpers) (m : ArmClient σ) (d : ResourceData) (s : σ),
      d.attrs "user_metadata" = none →
      (resourceArmEventHubConsumerGroupCreateUpdate h m d s).calls.head?
        = some (Call.CreateOrUpdate (d.Get "resource_group_name") (d.Get "namespace_name")
            (d.Get "eventhub_name") (d.Get "name")
            { Response := { StatusCode := none },
              ConsumerGroupProperties := some { UserMetadata := some "" },
              ID := none,
              Name := some (d.Get "name") })) := by
  refine ⟨?_, ?_, ?_, rfl, ?_⟩
  · intro v hv
    simp [userMetadataSchema, StringLenBetween, hv]
  · intro v hv
    simp [userMetadataSchema, StringLenBetween, hv]
  · intro v h1 h2
    simp only [userMetadataSchema, StringLenBetween]
    simp
    omega
  · intro σ h m d s hnone
    have hum : d.Get "user_metadata" = "" := by simp [ResourceData.Get, hnone]
    unfold resourceArmEventHubConsumerGroupCreateUpdate
    simp only [hum]
    split
    · rfl
    · split
      · rfl
      · split <;> rfl

/-- Instance of C8: the empty string and a string of 1025 characters are
rejected, strings of 1 and of 1024 characters are accepted, and CreateUpdate
on the example configuration without `user_metadata` starts with an upsert
whose metadata is the empty string. -/
theorem user_metadata_validation_witness :
    userMetadataSchema.ValidateFunc "" = false ∧
    userMetadataSchema.ValidateFunc (String.mk (List.replicate 1025 'a')) = false ∧
    userMetadataSchema.ValidateFunc "m" = true ∧
    userMetadataSchema.ValidateFunc (String.mk (List.replicate 1024 'a')) = true ∧
    (resourceArmEventHubConsumerGroupCreateUpdate demoHelpers ⟨memoryClient demoIssue⟩
        demoConfigNoMetadata []).calls.head?
      = some (Call.CreateOrUpdate "rg1" "ns1" "eh1" "cg1"
          { Response := { StatusCode := none },
            ConsumerGroupProperties := some { UserMetadata := some "" },
            ID := none,
            Name := some "cg1" }) :=
  ⟨user_metadata_validation.1 "" rfl,
   user_metadata_validation.2.1 (String.mk (List.replicate 1025 'a'))
     (by show 1024 < (List.replicate 1025 'a').length; rw [List.length_replicate]; omega),
   user_metadata_validation.2.2.1 "m" (by decide) (by decide),
   user_metadata_validation.2.2.1 (String.mk (List.replicate 1024 'a'))
     (by show 1 ≤ (List.replicate 1024 'a').length; rw [List.length_replicate]; omega)
     (by show (List.replicate 1024 'a').length ≤ 1024; rw [List.length_replicate]),
   user_metadata_validation.2.2.2.2 _ demoHelpers ⟨memoryClient demoIssue⟩
     demoConfigNoMetadata [] rfl⟩

/-! ## How many remote calls an operation issues -/

/-- C9, the claim fails: on the in-memory service CreateUpdate of the example
configuration succeeds and issues three calls, the upsert, the re-fetch and the
get of the Read it ends with. -/
theorem createUpdate_issues_three_calls :
    (resourceArmEventHubConsumerGroupCreateUpdate demoHelpers ⟨memoryClient demoIssue⟩
        demoConfig []).result = Outcome.nil ∧
    (resourceArmEventHubConsumerGroupCreateUpdate demoHelpers ⟨memoryClient demoIssue⟩
        demoConfig []).calls
      = [Call.CreateOrUpdate "rg1" "ns1" "eh1" "cg1"
          { Response := { StatusCode := none },
            ConsumerGroupProperties := some { UserMetadata := some "m" },
            ID := none,
            Name := some "cg1" },
         Call.Get "rg1" "ns1" "eh1" "cg1",
         Call.Get "rg1" "ns1" "eh1" "cg1"] ∧
    ¬ (resourceArmEventHubConsumerGroupCreateUpdate demoHelpers ⟨memoryClient demoIssue⟩
        demoConfig []).calls.length ≤ 2 := by
  refine ⟨by decide, by decide, by decide⟩

/-- Read issues the get of the parsed identifier and nothing else when the
identifier parses. -/
theorem read_calls_of_parse {σ : Type} (h : Helpers) (m : ArmClient σ)
    (d : ResourceData) (s : σ) (id : ResourceID)
    (hparse : h.parseAzureResourceID d.Id = .ok id) :
    (resourceArmEventHubConsumerGroupRead h m d s).calls = [readCall id] := by
  unfold resourceArmEventHubConsumerGroupRead
  simp only [hparse]
  rcases hg : m.eventHubConsumerGroupClient.Get s id.ResourceGroup (id.path "namespaces")
    (id.path "eventhubs") (id.path "consumergroups") with ⟨s1, resp, e⟩
  cases e with
  | some e1 => cases hnf : h.ResponseWasNotFound resp.Response <;> simp [hnf, readCall]
  | none => cases hp : resp.ConsumerGroupProperties <;> simp [hp, readCall]

/-- Read issues no call and returns the parser's error when the identifier
does not parse. -/
theorem read_of_parse_error {σ : Type} (h : Helpers) (m : ArmClient σ)
    (d : ResourceData) (s : σ) (e : String)
    (hparse : h.parseAzureResourceID d.Id = .error e) :
    (resourceArmEventHubConsumerGroupRead h m d s).calls = [] ∧
    (resourceArmEventHubConsumerGroupRead h m d s).result = Outcome.error e := by
  unfold resourceArmEventHubConsumerGroupRead
  simp only [hparse]
  simp

/-- Delete issues the delete of the parsed identifier and nothing else when
the identifier parses. -/
theorem delete_calls_of_parse {σ : Type} (h : Helpers) (m : ArmClient σ)
    (d : ResourceData) (s : σ) (id : ResourceID)
    (hparse : h.parseAzureResourceID d.Id = .ok id) :
    (resourceArmEventHubConsumerGroupDelete h m d s).calls = [deleteCall id] := by
  unfold resourceArmEventHubConsumerGroupDelete
  simp only [hparse]
  rcases hg : m.eventHubConsumerGroupClient.Delete s id.ResourceGroup (id.path "namespaces")
    (id.path "eventhubs") (id.path "consumergroups") with ⟨s1, resp, e⟩
  cases e with
  | some e1 => cases hnf : h.ResponseWasNotFound resp <;> simp [hnf, deleteCall]
  | none => simp [deleteCall]

/-- C9 as amended: Read issues exactly one call, the get of the parsed
identifier, when the identifier parses and none when it does not; Delete issues
exactly one call, the delete of the parsed identifier, when the identifier
parses and none when it does not; CreateUpdate issues at most three calls, and
a CreateUpdate that returns no error issues exactly three: the upsert, the
re-fetch, and the get of the Read it ends with. -/
theorem remote_call_counts {σ : Type} (h : Helpers) (m : ArmClient σ)
    (d : ResourceData) (s : σ) :
    (∀ id, h.parseAzureResourceID d.Id = .ok id →
      (resourceArmEventHubConsumerGroupRead h m d s).calls = [readCall id]) ∧
    (∀ e, h.parseAzureResourceID d.Id = .error e →
      (resourceArmEventHubConsumerGroupRead h m d s).calls = []) ∧
    (∀ id, h.parseAzureResourceID d.Id = .ok id →
      (resourceArmEventHubConsumerGroupDelete h m d s).calls = [deleteCall id]) ∧
    (∀ e, h.parseAzureResourceID d.Id = .error e →
      (resourceArmEventHubConsumerGroupDelete h m d s).calls = []) ∧
    (resourceArmEventHubConsumerGroupCreateUpdate h m d s).calls.length ≤ 3 ∧
    ((resourceArmEventHubConsumerGroupCreateUpdate h m d s).result = Outcome.nil →
      ∃ id, (resourceArmEventHubConsumerGroupCreateUpdate h m d s).calls
        = [upsertCall d, refetchCall d, readCall id]) := by
  refine ⟨fun id hp => read_calls_of_parse h m d s id hp,
    fun e hp => (read_of_parse_error h m d s e hp).1,
    fun id hp => delete_calls_of_parse h m d s id hp, ?_, ?_⟩
  · intro e hp
    unfold resourceArmEventHubConsumerGroupDelete
    simp only [hp]
  · rcases hcu : m.eventHubConsumerGroupClient.CreateOrUpdate s (d.Get "resource_group_name")
      (d.Get "namespace_name") (d.Get "eventhub_name") (d.Get "name") (createParameters d)
      with ⟨s1, sent, e1⟩
    have hcu1 := hcu
    unfold createParameters at hcu1
    cases e1 with
    | some e =>
      unfold resourceArmEventHubConsumerGroupCreateUpdate
      simp only [hcu1]
      simp
    | none =>
      rcases hg : m.eventHubConsumerGroupClient.Get s1 (d.Get "resource_group_name")
        (d.Get "namespace_name") (d.Get "eventhub_name") (d.Get "name") with ⟨s2, read, e2⟩
      cases e2 with
      | some e =>
        unfold resourceArmEventHubConsumerGroupCreateUpdate
        simp only [hcu1, hg]
        simp
      | none =>
        cases hid : read.ID with
        | none =>
          unfold resourceArmEventHubConsumerGroupCreateUpdate
          simp only [hcu1, hg, hid]
          simp
        | some readID =>
          have hrun := createUpdate_runs_read h m d s s1 s2 sent read hcu hg readID hid
          rw [hrun.1, hrun.2.2]
          cases hparse : h.parseAzureResourceID (d.SetId readID).Id with
          | error e =>
            have hr := read_of_parse_error h m (d.SetId readID) s2 e hparse
            rw [hr.1, hr.2]
            simp
          | ok id =>
            rw [read_calls_of_parse h m (d.SetId readID) s2 id hparse]
            exact ⟨by simp, fun _ => ⟨id, rfl⟩⟩

/-- Instance of C9 as amended: Read of `demoID` on an empty in-memory service
issues the one get of `rg1`, `ns1`, `eh1`, `cg1`. -/
theorem remote_call_counts_witness :
    (resourceArmEventHubConsumerGroupRead demoHelpers ⟨memoryClient demoIssue⟩
      demoResource []).calls = [Call.Get "rg1" "ns1" "eh1" "cg1"] :=
  (remote_call_counts demoHelpers ⟨memoryClient demoIssue⟩ demoResource []).1
    { ResourceGroup := "rg1",
      Path := [("namespaces", "ns1"), ("eventhubs", "eh1"), ("consumergroups", "cg1")] } rfl

/-! ## Identifiers that do not parse, identifiers that lack a segment -/

/-- C3, the claim fails: `shortID` names a resource group and has no namespace,
event hub or consumer-group segment; the parser decomposes it into `rg1` and an
empty `Path`.  Read issues the get, and Delete the delete, of `rg1` with three
empty segments, and neither returns an error. -/
theorem missing_segments_still_call :
    lenientHelpers.parseAzureResourceID shortResource.Id
      = .ok { ResourceGroup := "rg1", Path := [] } ∧
    (resourceArmEventHubConsumerGroupRead lenientHelpers ⟨memoryClient demoIssue⟩
      shortResource []).calls = [Call.Get "rg1" "" "" ""] ∧
    (resourceArmEventHubConsumerGroupRead lenientHelpers ⟨memoryClient demoIssue⟩
      shortResource []).result = Outcome.nil ∧
    (resourceArmEventHubConsumerGroupDelete lenientHelpers ⟨memoryClient demoIssue⟩
      shortResource []).calls = [Call.Delete "rg1" "" "" ""] ∧
    (resourceArmEventHubConsumerGroupDelete lenientHelpers ⟨memoryClient demoIssue⟩
      shortResource []).result = Outcome.nil := by
  refine ⟨rfl, by decide, by decide, by decide, by decide⟩

/-- The lookup of a key the `Path` of a parsed identifier lacks is the empty string. -/
theorem path_of_missing_key (id : ResourceID) (key : String)
    (hmiss : ∀ kv ∈ id.Path, kv.1 ≠ key) : id.path key = "" := by
  unfold ResourceID.path
  have hnone : id.Path.find? (fun kv => decide (kv.1 = key)) = none := by
    rw [List.find?_eq_none]
    intro kv hkv
    simpa using hmiss kv hkv
  rw [hnone]

/-- C3 as amended: when `parseAzureResourceID` rejects the identifier, both
`resourceArmEventHubConsumerGroupRead` and `resourceArmEventHubConsumerGroupDelete`
return the parser's error, issue no remote call and leave the remote state as
it was.  When it accepts the identifier, no segment is checked: Read issues
exactly the get, and Delete exactly the delete, of the parsed resource group
and the lookups of `namespaces`, `eventhubs` and `consumergroups`, and the
lookup of a segment the identifier lacks is the empty string. -/
theorem parse_decides_remote_call {σ : Type} (h : Helpers) (m : ArmClient σ)
    (d : ResourceData) (s : σ) :
    (∀ err, h.parseAzureResourceID d.Id = .error err →
      (resourceArmEventHubConsumerGroupRead h m d s).result = Outcome.error err ∧
      (resourceArmEventHubConsumerGroupRead h m d s).calls = [] ∧
      (resourceArmEventHubConsumerGroupRead h m d s).remote = s ∧
      (resourceArmEventHubConsumerGroupDelete h m d s).result = Outcome.error err ∧
      (resourceArmEventHubConsumerGroupDelete h m d s).calls = [] ∧
      (resourceArmEventHubConsumerGroupDelete h m d s).remote = s) ∧
    (∀ id, h.parseAzureResourceID d.Id = .ok id →
      (resourceArmEventHubConsumerGroupRead h m d s).calls
        = [Call.Get id.ResourceGroup (id.path "namespaces") (id.path "eventhubs")
            (id.path "consumergroups")] ∧
      (resourceArmEventHubConsumerGroupDelete h m d s).calls
        = [Call.Delete id.ResourceGroup (id.path "namespaces") (id.path "eventhubs")
            (id.path "consumergroups")]) ∧
    (∀ (id : ResourceID) (key : String), (∀ kv ∈ id.Path, kv.1 ≠ key) → id.path key = "") := by
  refine ⟨?_, ?_, path_of_missing_key⟩
  · intro err hparse
    unfold resourceArmEventHubConsumerGroupRead resourceArmEventHubConsumerGroupDelete
    simp only [hparse]
    simp
  · intro id hparse
    exact ⟨read_calls_of_parse h m d s id hparse, delete_calls_of_parse h m d s id hparse⟩

/-- Instance of C3 as amended: `"garbage"` is rejected by the parser, and Read
and Delete return its error without any call; `shortID` is accepted, and Read
issues the get of `rg1` with three empty segments. -/
theorem parse_decides_remote_call_witness :
    ((resourceArmEventHubConsumerGroupRead demoHelpers ⟨memoryClient demoIssue⟩
        garbageResource []).result = Outcome.error "Cannot parse Azure Id: garbage" ∧
      (resourceArmEventHubConsumerGroupRead demoHelpers ⟨memoryClient demoIssue⟩
        garbageResource []).calls = [] ∧
      (resourceArmEventHubConsumerGroupRead demoHelpers ⟨memoryClient demoIssue⟩
        garbageResource []).remote = [] ∧
      (resourceArmEventHubConsumerGroupDelete demoHelpers ⟨memoryClient demoIssue⟩
        garbageResource []).result = Outcome.error "Cannot parse Azure Id: garbage" ∧
      (resourceArmEventHubConsumerGroupDelete demoHelpers ⟨memoryClient demoIssue⟩
        garbageResource []).calls = [] ∧
      (resourceArmEventHubConsumerGroupDelete demoHelpers ⟨memoryClient demoIssue⟩
        garbageResource []).remote = []) ∧
    (resourceArmEventHubConsumerGroupRead lenientHelpers ⟨memoryClient demoIssue⟩
      shortResource []).calls = [Call.Get "rg1" "" "" ""] :=
  ⟨(parse_decides_remote_call demoHelpers ⟨memoryClient demoIssue⟩ garbageResource []).1
      "Cannot parse Azure Id: garbage" rfl,
   ((parse_decides_remote_call lenientHelpers ⟨memoryClient demoIssue⟩ shortResource []).2.1
      { ResourceGroup := "rg1", Path := [] } rfl).1⟩

end Azurerm
